import Mathlib

/-!
Shallow embedding of the helmet-detection inference pipeline
(`Inference.py`, `Api.py`) and proofs about the specified properties.

The detector (`model.predict`) is an external capability; it is embedded as
an oracle function passed to each orchestrator.  The filesystem is embedded
as an explicit record of created directories plus an association list of
written files.  Directory listings (the results of `os.scandir` underlying
`pathlib.Path.glob`) are embedded as a list of file names in listing order.
-/

namespace HelmetDetect

/-! ### Path helpers (the parts of `pathlib` that the code uses) -/

/-- Final path component (`Path(p).name`): everything after the last slash. -/
def base_name (p : String) : String :=
  ⟨(p.data.reverse.takeWhile (fun c => c ≠ '/')).reverse⟩

/-- `PurePath.stem` on a bare file name: the name minus its suffix.  A name
with no dot, a leading dot only, or a trailing dot has no suffix. -/
def path_stem (name : String) : String :=
  let r := name.data.reverse
  let after := r.takeWhile (fun c => c ≠ '.')
  match r.drop after.length with
  | [] => name
  | _ :: [] => name
  | _ :: before => if after.isEmpty then name else ⟨before.reverse⟩

/-- `PurePath` extension on a bare file name, without the leading dot
(empty when the name has no suffix). -/
def path_ext (name : String) : String :=
  let r := name.data.reverse
  let after := r.takeWhile (fun c => c ≠ '.')
  match r.drop after.length with
  | [] => ""
  | _ :: [] => ""
  | _ :: _ => if after.isEmpty then "" else ⟨after.reverse⟩

/-- `Path(p).stem`: stem of the final component. -/
def stem (p : String) : String := path_stem (base_name p)

/-! ### Errors and filesystem model -/

/-- The exceptions the embedded code can raise. -/
inductive PyErr where
  | fileNotFound (msg : String)
  | invalidImage (msg : String)
  | decodeErr (msg : String)
  deriving DecidableEq, Repr

/-- Filesystem state: directories created so far and written files
(path paired with an opaque content identifier). -/
structure FS where
  dirs : List String
  files : List (String × Nat)
  deriving DecidableEq, Repr

def FS.empty : FS := ⟨[], []⟩

/-- `Path(d).mkdir(parents=True, exist_ok=True)`. -/
def mkdir_parents (fs : FS) (d : String) : FS :=
  if d ∈ fs.dirs then fs else { fs with dirs := d :: fs.dirs }

/-- `cv2.imwrite(path, content)`: overwrites any existing file at `path`. -/
def write_file (fs : FS) (path : String) (content : Nat) : FS :=
  { fs with files := (fs.files.filter (fun pr => pr.1 ≠ path)) ++ [(path, content)] }

/-- Number of stored entries at `path` (1 after a write, never more). -/
def file_count (fs : FS) (path : String) : Nat :=
  (fs.files.filter (fun pr => pr.1 = path)).length

/-! ### Per-Item Processor: `run_inference_image` -/

/-- Output file name computed by `run_inference_image`:
`f"{Path(image_path).stem}_detected.jpg"` — the extension is fixed. -/
def output_name (image_path : String) : String :=
  stem image_path ++ "_detected.jpg"

/-- Modelled from the spec (§4.4), for comparison with `output_name`:
`"{stem(source_identifier)}_detected.{ext}"` where `ext` is the extension
of the source. -/
def spec_output_name (image_path : String) : String :=
  stem image_path ++ "_detected." ++ path_ext (base_name image_path)

/-- `run_inference_image(model, image_path, conf_threshold, save_dir)`.
`predict` is the oracle for `model.predict(...)[0]`, returning the number
of boxes and the annotated image content, or raising.  Returns the pair
`(output_path, detections)` (the `results` value is summarised by its box
count) together with the updated filesystem; an exception from `predict`
propagates after the `mkdir` side effect. -/
def run_inference_image (predict : String → ℚ → Except PyErr (Nat × Nat))
    (image_path : String) (conf_threshold : ℚ) (save_dir : String) (fs : FS) :
    Except PyErr (String × Nat) × FS :=
  let fs1 := mkdir_parents fs save_dir
  match predict image_path conf_threshold with
  | .error e => (.error e, fs1)
  | .ok (boxes, annotated) =>
      let output_path := save_dir ++ "/" ++ output_name image_path
      (.ok (output_path, boxes), write_file fs1 output_path annotated)

/-! ### Batch Orchestrator: `batch_inference` -/

/-- `image_extensions` in `batch_inference`. -/
def image_extensions_list : List String :=
  [".jpg", ".jpeg", ".png", ".bmp", ".webp"]

/-- String suffix test, over the character lists. -/
def str_ends_with (name pat : String) : Bool :=
  pat.data.reverse.isPrefixOf name.data.reverse

/-- String prefix test, over the character lists. -/
def str_starts_with (name pat : String) : Bool :=
  pat.data.isPrefixOf name.data

/-- Python `str.upper()` on ASCII strings. -/
def str_to_upper (s : String) : String :=
  ⟨s.data.map Char.toUpper⟩

/-- `input_path.glob(f'*{pat}')` over a directory listing: the names ending
in `pat`, in listing order. -/
def glob_suffix (listing : List String) (pat : String) : List String :=
  listing.filter (fun name => str_ends_with name pat)

/-- The `image_files` list built by `batch_inference`: for each extension in
order, the lowercase-glob matches then the uppercase-glob matches. -/
def collect_image_files (listing : List String) : List String :=
  image_extensions_list.foldl
    (fun acc e => acc ++ glob_suffix listing e ++ glob_suffix listing (str_to_upper e)) []

/-- One entry of the `results_list` returned by `batch_inference`. -/
structure BatchRec where
  image : String
  detections : Nat
  output : String
  deriving DecidableEq, Repr

/-- The `for image_path in image_files:` loop of `batch_inference`: each
item is processed by `run_inference_image` with no per-item exception
handling, so the first raised exception propagates out of the loop. -/
def batchLoop (predict : String → ℚ → Except PyErr (Nat × Nat))
    (conf_threshold : ℚ) (save_dir : String) :
    List String → FS → List BatchRec → Except PyErr (List BatchRec) × FS
  | [], fs, acc => (.ok acc, fs)
  | p :: rest, fs, acc =>
      match run_inference_image predict p conf_threshold save_dir fs with
      | (.error e, fs1) => (.error e, fs1)
      | (.ok (out, boxes), fs1) =>
          batchLoop predict conf_threshold save_dir rest fs1
            (acc ++ [⟨p, boxes, out⟩])

/-- `batch_inference(model, input_dir, conf_threshold, save_dir)`.
`dir_exists` embeds `input_path.exists()` and `listing` the directory's
contents in listing order. -/
def batch_inference (predict : String → ℚ → Except PyErr (Nat × Nat))
    (dir_exists : Bool) (input_dir : String) (listing : List String)
    (conf_threshold : ℚ) (save_dir : String) (fs : FS) :
    Except PyErr (List BatchRec) × FS :=
  if dir_exists = false then
    (.error (.fileNotFound ("Directory not found: " ++ input_dir)), fs)
  else
    let image_files := collect_image_files listing
    if image_files.isEmpty then
      (.error (.fileNotFound ("No images found in " ++ input_dir)), fs)
    else
      batchLoop predict conf_threshold save_dir image_files fs []

/-! ### Stream Orchestrator: `run_inference_video` and `run_inference_webcam` -/

/-- The report assembled at the end of `run_inference_video`. -/
structure VideoReport where
  output_path : String
  frame_count : Nat
  detection_count : Nat
  avg_detections : ℚ
  deriving DecidableEq, Repr

/-- The `while cap.isOpened():` loop of `run_inference_video`: reads frames
until `cap.read()` fails (end of the frame list), accumulating
`frame_count` and `detection_count`; an exception from `predict`
propagates out of the loop. -/
def videoLoop (predict : Nat → Except PyErr Nat) :
    List Nat → Nat → Nat → Except PyErr (Nat × Nat)
  | [], frame_count, detection_count => .ok (frame_count, detection_count)
  | f :: rest, frame_count, detection_count =>
      match predict f with
      | .error e => .error e
      | .ok n => videoLoop predict rest (frame_count + 1) (detection_count + n)

/-- `run_inference_video(model, video_path, conf_threshold, save_dir)`.
`cap_frames` embeds `cv2.VideoCapture(video_path)`: `none` when the path
cannot be opened (then every `cap.read()` fails at once), `some frames`
otherwise.  The returned `Bool` records whether the `cap.release()`
statement after the loop was reached: an exception raised inside the loop
propagates before it.  No source-existence check is performed and no
exception is raised by the function itself. -/
def run_inference_video (predict : Nat → Except PyErr Nat)
    (cap_frames : Option (List Nat)) (video_path : String) (save_dir : String)
    (fs : FS) : (Bool × Except PyErr VideoReport) × FS :=
  let fs1 := mkdir_parents fs save_dir
  let output_path := save_dir ++ "/" ++ stem video_path ++ "_detected.mp4"
  let frames := cap_frames.getD []
  match videoLoop predict frames 0 0 with
  | .error e => ((false, .error e), fs1)
  | .ok (frame_count, detection_count) =>
      let avg : ℚ :=
        if frame_count ≠ 0 then (detection_count : ℚ) / (frame_count : ℚ) else 0
      ((true, .ok ⟨output_path, frame_count, detection_count, avg⟩),
        write_file fs1 output_path 0)

/-- The `while True:` loop of `run_inference_webcam`: each element of the
stream is a frame paired with whether the `q` key is pressed after showing
it; the loop ends on read failure (end of list) or on the keypress, and an
exception from `predict` propagates. -/
def webcamLoop (predict : Nat → Except PyErr Nat) :
    List (Nat × Bool) → Except PyErr Unit
  | [] => .ok ()
  | (f, quit_key) :: rest =>
      match predict f with
      | .error e => .error e
      | .ok _ => if quit_key then .ok () else webcamLoop predict rest

/-- `run_inference_webcam(model, conf_threshold)`.  The returned `Bool`
records whether `cap.release()` after the loop was reached. -/
def run_inference_webcam (predict : Nat → Except PyErr Nat)
    (cap_frames : List (Nat × Bool)) : Bool × Except PyErr Unit :=
  match webcamLoop predict cap_frames with
  | .ok _ => (true, .ok ())
  | .error e => (false, .error e)

/-! ### Model resolution: `find_latest_model` in `Inference.py` and `Api.py` -/

/-- Whether a file name matches the glob `helmet_detector_best_*.pt`. -/
def matches_model_glob (name : String) : Bool :=
  str_starts_with name "helmet_detector_best_" && str_ends_with name ".pt"

/-- Python `max(x :: xs, key)`: keeps the first element attaining the
maximal key. -/
def py_max_by {α : Type} (key : α → Nat) (x : α) (xs : List α) : α :=
  xs.foldl (fun best a => if key best < key a then a else best) x

/-- `find_latest_model()` in `Inference.py`: raises `FileNotFoundError`
when the `models` directory is missing or holds no matching file, else
returns the matching file with the greatest modification time.
`models_dir_exists` embeds `models_dir.exists()`, `listing` the directory
contents in listing order, `mtime` the `os.path.getmtime` oracle. -/
def find_latest_model (models_dir_exists : Bool) (listing : List String)
    (mtime : String → Nat) : Except PyErr String :=
  if models_dir_exists = false then
    .error (.fileNotFound "No models directory found.")
  else
    match listing.filter matches_model_glob with
    | [] => .error (.fileNotFound "No trained models found.")
    | x :: xs => .ok (py_max_by mtime x xs)

/-- `find_latest_model()` in `Api.py`: same resolution, but signals the two
failure cases by returning `None` instead of raising. -/
def find_latest_model_api (models_dir_exists : Bool) (listing : List String)
    (mtime : String → Nat) : Option String :=
  if models_dir_exists = false then none
  else
    match listing.filter matches_model_glob with
    | [] => none
    | x :: xs => some (py_max_by mtime x xs)

/-! ### Command-line surface: `main` in `Inference.py` -/

/-- `args.model if args.model else find_latest_model()`. -/
def resolve_model_path (args_model : Option String) (models_dir_exists : Bool)
    (listing : List String) (mtime : String → Nat) : Except PyErr String :=
  match args_model with
  | some mp => .ok mp
  | none => find_latest_model models_dir_exists listing mtime

/-- `main()`: the whole try-block (model resolution, model load, dispatch
on `--type`, embedded as `run` acting on the resolved model path) is
wrapped in `except Exception`, which prints `"Inference failed: ..."` and
falls through, so the interpreter exits with status 0 in every case.
Returns `(exit status, whether the failure message was printed)`. -/
def main_run (args_model : Option String) (models_dir_exists : Bool)
    (listing : List String) (mtime : String → Nat)
    (run : String → Except PyErr Unit) : Nat × Bool :=
  match (do
      let mp ← resolve_model_path args_model models_dir_exists listing mtime
      run mp : Except PyErr Unit) with
  | .ok _ => (0, false)
  | .error _ => (0, true)

/-! ### HTTP serving shell: `predict` and `predict_annotated` in `Api.py` -/

/-- A decoded image: opaque content plus pixel dimensions. -/
structure Image where
  content : Nat
  width : Nat
  height : Nat
  deriving DecidableEq, Repr

/-- One element of the `detections` payload. -/
structure DetectionResult where
  class_name : String
  confidence : ℚ
  bbox : List ℚ
  deriving DecidableEq, Repr

/-- The JSON body returned by `/predict` (the float `inference_time` field
is timing-dependent and not embedded). -/
structure PredictionResponse where
  success : Bool
  detections : List DetectionResult
  image_size : List Nat
  message : String
  deriving DecidableEq, Repr

/-- Outcome of a request handler: an `HTTPException` with its status code
and detail, or a successful response payload. -/
inductive ApiOutcome (α : Type) where
  | httpError (status : Nat) (detail : String)
  | ok (a : α)
  deriving DecidableEq, Repr

/-- `POST /predict`.  `model` embeds the global loaded-model variable
(`none` when not loaded), `decode` the `cv2.imdecode` oracle over the
uploaded bytes, and a loaded model maps a decoded image to its detection
list. -/
def predict_route (model : Option (Image → List DetectionResult))
    (decode : List Nat → Option Image) (contents : List Nat) :
    ApiOutcome PredictionResponse :=
  match model with
  | none => .httpError 503 "Model not loaded"
  | some m =>
      match decode contents with
      | none => .httpError 400 "Invalid image file"
      | some image =>
          let detections := m image
          .ok { success := true
                detections := detections
                image_size := [image.width, image.height]
                message := toString detections.length ++ " object(s) detected" }

/-- `POST /predict/annotated`.  Same guards; on success the annotated image
(`results.plot()` embedded as `plot`) is written to a temporary file and
returned as the file response's content. -/
def predict_annotated_route (model : Option (Image → List DetectionResult))
    (plot : Image → List DetectionResult → Nat)
    (decode : List Nat → Option Image) (contents : List Nat) :
    ApiOutcome Nat :=
  match model with
  | none => .httpError 503 "Model not loaded"
  | some m =>
      match decode contents with
      | none => .httpError 400 "Invalid image file"
      | some image => .ok (plot image (m image))

/-! ### Helper lemmas -/

theorem mem_glob_suffix (listing : List String) (pat name : String) :
    name ∈ glob_suffix listing pat ↔
      name ∈ listing ∧ str_ends_with name pat = true := by
  simp [glob_suffix, List.mem_filter]

theorem mkdir_parents_mem_self (fs : FS) (d : String) :
    d ∈ (mkdir_parents fs d).dirs := by
  unfold mkdir_parents
  split
  · assumption
  · exact List.mem_cons_self _ _

theorem mkdir_parents_of_mem (fs : FS) (d : String) (h : d ∈ fs.dirs) :
    mkdir_parents fs d = fs := by
  unfold mkdir_parents
  rw [if_pos h]

theorem write_file_dirs (fs : FS) (path : String) (c : Nat) :
    (write_file fs path c).dirs = fs.dirs := rfl

theorem filter_ne_filter_ne (l : List (String × Nat)) (path : String) :
    (l.filter (fun pr => pr.1 ≠ path)).filter (fun pr => pr.1 ≠ path)
      = l.filter (fun pr => pr.1 ≠ path) := by
  induction l with
  | nil => rfl
  | cons x t ih =>
    by_cases hx : x.1 = path
    · simp [List.filter_cons, hx, ih]
    · simp [List.filter_cons, hx, ih]

theorem filter_eq_of_filter_ne (l : List (String × Nat)) (path : String) :
    (l.filter (fun pr => pr.1 ≠ path)).filter (fun pr => pr.1 = path) = [] := by
  induction l with
  | nil => rfl
  | cons x t ih =>
    by_cases hx : x.1 = path
    · simp [List.filter_cons, hx, ih]
    · simp [List.filter_cons, hx, ih]

theorem write_file_write_file (fs : FS) (path : String) (c1 c2 : Nat) :
    write_file (write_file fs path c1) path c2 = write_file fs path c2 := by
  unfold write_file
  simp [List.filter_append, filter_ne_filter_ne, List.filter_cons]

theorem write_file_count_self (fs : FS) (path : String) (c : Nat) :
    file_count (write_file fs path c) path = 1 := by
  unfold file_count write_file
  simp [List.filter_append, filter_eq_of_filter_ne, List.filter_cons]

theorem py_max_by_spec {α : Type} (key : α → Nat) (x : α) (xs : List α) :
    py_max_by key x xs ∈ x :: xs ∧ key x ≤ key (py_max_by key x xs) ∧
      ∀ y ∈ xs, key y ≤ key (py_max_by key x xs) := by
  induction xs generalizing x with
  | nil => simp [py_max_by]
  | cons a t ih =>
    have hdef : py_max_by key x (a :: t)
        = py_max_by key (if key x < key a then a else x) t := rfl
    rcases ih (if key x < key a then a else x) with ⟨hmem, hle, hall⟩
    have hxb : key x ≤ key (if key x < key a then a else x) := by
      split
      · exact Nat.le_of_lt (by assumption)
      · exact Nat.le_refl _
    have hab : key a ≤ key (if key x < key a then a else x) := by
      split
      · exact Nat.le_refl _
      · exact Nat.le_of_not_lt (by assumption)
    refine ⟨?_, ?_, ?_⟩
    · rw [hdef]
      rcases List.mem_cons.mp hmem with h | h
      · rw [h]
        split
        · exact List.mem_cons_of_mem _ (List.mem_cons_self _ _)
        · exact List.mem_cons_self _ _
      · exact List.mem_cons_of_mem _ (List.mem_cons_of_mem _ h)
    · rw [hdef]
      exact Nat.le_trans hxb hle
    · rw [hdef]
      intro y hy
      rcases List.mem_cons.mp hy with h | h
      · rw [h]
        exact Nat.le_trans hab hle
      · exact hall y h

theorem videoLoop_all_ok (predict : Nat → Except PyErr Nat) (frames : List Nat) :
    ∀ fc dc : Nat, (∀ f ∈ frames, ∃ n, predict f = .ok n) →
      ∃ r, videoLoop predict frames fc dc = .ok r := by
  induction frames with
  | nil => intro fc dc _; exact ⟨(fc, dc), rfl⟩
  | cons f rest ih =>
    intro fc dc h
    obtain ⟨n, hn⟩ := h f (List.mem_cons_self _ _)
    obtain ⟨r, hr⟩ := ih (fc + 1) (dc + n) (fun g hg => h g (List.mem_cons_of_mem _ hg))
    refine ⟨r, ?_⟩
    simp only [videoLoop, hn]
    exact hr

theorem webcamLoop_all_ok (predict : Nat → Except PyErr Nat) :
    ∀ frames : List (Nat × Bool),
      (∀ fq ∈ frames, ∃ n, predict fq.1 = .ok n) →
      webcamLoop predict frames = .ok () := by
  intro frames
  induction frames with
  | nil => intro _; rfl
  | cons fq rest ih =>
    intro h
    obtain ⟨n, hn⟩ := h fq (List.mem_cons_self _ _)
    obtain ⟨f, q⟩ := fq
    simp only [webcamLoop, hn]
    cases q
    · simpa using ih (fun g hg => h g (List.mem_cons_of_mem _ hg))
    · rfl

theorem batchLoop_all_ok (predict : String → ℚ → Except PyErr (Nat × Nat))
    (conf_threshold : ℚ) (save_dir : String) (files : List String) :
    ∀ (fs : FS) (acc : List BatchRec),
      (∀ p ∈ files, ∃ r, predict p conf_threshold = .ok r) →
      ∃ recs fs2,
        batchLoop predict conf_threshold save_dir files fs acc = (.ok recs, fs2) ∧
        recs.map BatchRec.image = acc.map BatchRec.image ++ files := by
  induction files with
  | nil => intro fs acc _; exact ⟨acc, fs, rfl, by simp⟩
  | cons p rest ih =>
    intro fs acc h
    obtain ⟨⟨boxes, annotated⟩, hp⟩ := h p (List.mem_cons_self _ _)
    obtain ⟨recs, fs2, heq, hmap⟩ :=
      ih (write_file (mkdir_parents fs save_dir)
            (save_dir ++ "/" ++ output_name p) annotated)
         (acc ++ [⟨p, boxes, save_dir ++ "/" ++ output_name p⟩])
         (fun q hq => h q (List.mem_cons_of_mem _ hq))
    refine ⟨recs, fs2, ?_, ?_⟩
    · simp only [batchLoop, run_inference_image, hp]
      exact heq
    · rw [hmap]
      simp

/-! ### Claim C1 -/

/-- C1, counterexample: in a directory with two eligible files of which one
fails per-item processing, `batch_inference` does not capture the failure
as a record — the exception escapes the call instead of a two-record
report being returned. -/
theorem C1_counterexample :
    (batch_inference
        (fun p _ => if p = "bad.jpg"
          then .error (.invalidImage "cannot identify image")
          else .ok (0, 1))
        true "imgs" ["a.jpg", "bad.jpg"] (1/4) "results/inference" FS.empty).1
      = .error (.invalidImage "cannot identify image") := by rfl

/-- C1 (amended): `batch_inference` has no per-item failure handling — the
first per-item exception propagates and aborts the batch; when every one
of the `k` eligible files processes successfully, the call returns exactly
`k` success records, one per file in enumeration order. -/
theorem C1_batch_no_failure_capture
    (predict : String → ℚ → Except PyErr (Nat × Nat))
    (input_dir : String) (listing : List String) (conf_threshold : ℚ)
    (save_dir : String) (fs : FS)
    (hok : ∀ p ∈ collect_image_files listing, ∃ r, predict p conf_threshold = .ok r)
    (hne : collect_image_files listing ≠ []) :
    ∃ recs fs2,
      batch_inference predict true input_dir listing conf_threshold save_dir fs
        = (.ok recs, fs2) ∧
      recs.map BatchRec.image = collect_image_files listing ∧
      recs.length = (collect_image_files listing).length := by
  obtain ⟨recs, fs2, heq, hmap⟩ :=
    batchLoop_all_ok predict conf_threshold save_dir
      (collect_image_files listing) fs [] hok
  have hie : (collect_image_files listing).isEmpty = false := by
    cases hc : collect_image_files listing with
    | nil => exact absurd hc hne
    | cons a l => rfl
  refine ⟨recs, fs2, ?_, ?_, ?_⟩
  · simp only [batch_inference, hie, Bool.false_eq_true, if_false]
    exact heq
  · simpa using hmap
  · have := congrArg List.length hmap
    simpa using this

/-- C1 witness: the amended theorem applied to a one-file directory whose
item succeeds. -/
theorem C1_witness :
    ∃ recs fs2,
      batch_inference (fun _ _ => .ok (1, 5)) true "imgs" ["a.jpg"] 1
          "results/inference" FS.empty
        = (.ok recs, fs2) ∧
      recs.map BatchRec.image = collect_image_files ["a.jpg"] ∧
      recs.length = (collect_image_files ["a.jpg"]).length :=
  C1_batch_no_failure_capture _ _ _ _ _ _
    (fun _ _ => ⟨(1, 5), rfl⟩) (by decide)

/-! ### Claim C2 -/

/-- C2, counterexample: when the detector raises on a frame, the exception
propagates out of the video loop before the `cap.release()` statement, so
the decode handle is not released on that exit path. -/
theorem C2_counterexample :
    ((run_inference_video (fun _ => .error (.decodeErr "bad frame"))
        (some [0]) "v.mp4" "results/inference" FS.empty).1).1 = false := by rfl

/-- C2 (amended): the decode handle is released on normal end-of-stream
(video) and on end-of-stream or the `q` keypress (webcam) — every exit
path on which no exception is raised while processing a frame — but an
error raised by the detector inside the loop propagates without the
release running. -/
theorem C2_release_on_normal_exit
    (vpredict wpredict : Nat → Except PyErr Nat) (video_path save_dir : String)
    (fs : FS) (frames : List Nat) (wframes : List (Nat × Bool))
    (hv : ∀ f ∈ frames, ∃ n, vpredict f = .ok n)
    (hw : ∀ fq ∈ wframes, ∃ n, wpredict fq.1 = .ok n) :
    ((run_inference_video vpredict (some frames) video_path save_dir fs).1).1 = true ∧
    (run_inference_webcam wpredict wframes).1 = true := by
  constructor
  · obtain ⟨r, hr⟩ := videoLoop_all_ok vpredict frames 0 0 hv
    obtain ⟨fc, dc⟩ := r
    simp [run_inference_video, hr]
  · simp [run_inference_webcam, webcamLoop_all_ok wpredict wframes hw]

/-- C2 witness: the amended theorem applied to a two-frame video and a
webcam stream stopped by the keypress, with a detector that never
raises. -/
theorem C2_witness :
    ((run_inference_video (fun _ => .ok 1) (some [7, 8]) "v.mp4"
        "results/inference" FS.empty).1).1 = true ∧
    (run_inference_webcam (fun _ => .ok 0) [(3, true)]).1 = true :=
  C2_release_on_normal_exit _ _ _ _ _ _ _
    (fun _ _ => ⟨1, rfl⟩) (fun _ _ => ⟨0, rfl⟩)

/-! ### Claim C3 -/

/-- C3, counterexample: video mode performs no source-existence check — on
an unopenable source `run_inference_video` raises nothing and returns a
normal zero-frame report (after constructing the output writer), instead
of failing with `SourceNotFound`. -/
theorem C3_counterexample :
    ((run_inference_video (fun _ => .ok 0) none "missing.mp4"
        "results/inference" FS.empty).1).2
      = .ok ⟨"results/inference/missing_detected.mp4", 0, 0, 0⟩ := by rfl

/-- C3 (amended): only batch mode checks its source — `batch_inference` on
a non-existent directory raises `FileNotFoundError` before any output is
written (the filesystem is returned unchanged) — while video mode raises
nothing for an unopenable source and completes with a zero-frame
report. -/
theorem C3_source_check_only_in_batch
    (predict : String → ℚ → Except PyErr (Nat × Nat))
    (vpredict : Nat → Except PyErr Nat) (input_dir video_path save_dir : String)
    (listing : List String) (conf_threshold : ℚ) (fs : FS) :
    batch_inference predict false input_dir listing conf_threshold save_dir fs
        = (.error (.fileNotFound ("Directory not found: " ++ input_dir)), fs) ∧
    ∃ rep, ((run_inference_video vpredict none video_path save_dir fs).1).2 = .ok rep ∧
      rep.frame_count = 0 := by
  exact ⟨rfl, ⟨_, rfl, rfl⟩⟩

/-- C3 witness: the amended theorem at concrete arguments. -/
theorem C3_witness :
    batch_inference (fun _ _ => .ok (0, 0)) false "imgs" [] 1
        "results/inference" FS.empty
      = (.error (.fileNotFound ("Directory not found: " ++ "imgs")), FS.empty) ∧
    ∃ rep, ((run_inference_video (fun _ => .ok 0) none "v.mp4"
        "results/inference" FS.empty).1).2 = .ok rep ∧ rep.frame_count = 0 :=
  C3_source_check_only_in_batch _ _ _ _ _ _ _ _

/-! ### Claim C4 -/

/-- C4, counterexample: for a directory listing `["a.png", "b.jpg"]` the
enumeration is `["b.jpg", "a.png"]` — grouped by extension, not
lexicographic by filename — and a file `"c.Jpg"` whose extension is in
the allow-list up to case is not enumerated at all, because only the
all-lowercase and all-uppercase spellings are globbed. -/
theorem C4_counterexample :
    collect_image_files ["a.png", "b.jpg"] = ["b.jpg", "a.png"] ∧
    collect_image_files ["a.png", "b.jpg"] ≠ ["a.png", "b.jpg"] ∧
    collect_image_files ["c.Jpg"] = [] := by
  exact ⟨by rfl, by decide, by rfl⟩

/-- C4 (amended): `batch_inference` enumerates exactly the listed files
whose name ends with an allow-list extension in its all-lowercase or
all-uppercase spelling (mixed-case extensions are excluded); the order
groups files by extension in allow-list order, lowercase matches before
uppercase ones, keeping directory listing order within each group — so it
is deterministic in the listing order, not lexicographic by filename. -/
theorem C4_collect_image_files_mem (listing : List String) (name : String) :
    name ∈ collect_image_files listing ↔
      name ∈ listing ∧ ∃ e ∈ image_extensions_list,
        (str_ends_with name e = true ∨ str_ends_with name (str_to_upper e) = true) := by
  have aux : ∀ (exts : List String) (acc : List String),
      name ∈ exts.foldl
        (fun acc e => acc ++ glob_suffix listing e ++ glob_suffix listing (str_to_upper e)) acc ↔
      name ∈ acc ∨ ∃ e ∈ exts, name ∈ listing ∧
        (str_ends_with name e = true ∨ str_ends_with name (str_to_upper e) = true) := by
    intro exts
    induction exts with
    | nil => intro acc; simp
    | cons e rest ih =>
      intro acc
      rw [List.foldl_cons, ih]
      simp only [List.mem_append, mem_glob_suffix, List.mem_cons]
      constructor
      · rintro (((h | h) | h) | ⟨f, hf, hmem, hends⟩)
        · exact Or.inl h
        · exact Or.inr ⟨e, Or.inl rfl, h.1, Or.inl h.2⟩
        · exact Or.inr ⟨e, Or.inl rfl, h.1, Or.inr h.2⟩
        · exact Or.inr ⟨f, Or.inr hf, hmem, hends⟩
      · rintro (h | ⟨f, hf | hf, hmem, hends⟩)
        · exact Or.inl (Or.inl (Or.inl h))
        · subst hf
          rcases hends with h | h
          · exact Or.inl (Or.inl (Or.inr ⟨hmem, h⟩))
          · exact Or.inl (Or.inr ⟨hmem, h⟩)
        · exact Or.inr ⟨f, hf, hmem, hends⟩
  rw [collect_image_files, aux]
  simp only [List.not_mem_nil, false_or]
  constructor
  · rintro ⟨e, he, hmem, hends⟩
    exact ⟨hmem, e, he, hends⟩
  · rintro ⟨hmem, e, he, hends⟩
    exact ⟨e, he, hmem, hends⟩

/-- C4 witness: the amended characterisation at a concrete listing and
name. -/
theorem C4_witness :
    "b.jpg" ∈ collect_image_files ["a.png", "b.jpg"] ↔
      "b.jpg" ∈ ["a.png", "b.jpg"] ∧ ∃ e ∈ image_extensions_list,
        (str_ends_with "b.jpg" e = true ∨
          str_ends_with "b.jpg" (str_to_upper e) = true) :=
  C4_collect_image_files_mem _ _

/-! ### Claim C5 -/

/-- C5, counterexample: when the run fails with the `SourceNotFound`
exception (`FileNotFoundError` for a missing directory), `main` catches
it, prints the failure message, and the process still exits with status
zero — not the non-zero status the claim requires. -/
theorem C5_counterexample :
    main_run (some "helmet_detector_best_1.pt") true [] (fun _ => 0)
        (fun _ => .error (.fileNotFound "Directory not found: imgs"))
      = (0, true) := by rfl

/-- C5 (amended): `main` wraps the whole run in a catch-all handler that
only prints `"Inference failed: ..."`, so the process exits with status
zero whatever the outcome — including `SourceNotFound`, `EmptyBatch` and
model-load failures. -/
theorem C5_exit_zero_always (args_model : Option String)
    (models_dir_exists : Bool) (listing : List String) (mtime : String → Nat)
    (run : String → Except PyErr Unit) :
    (main_run args_model models_dir_exists listing mtime run).1 = 0 := by
  unfold main_run
  split <;> rfl

/-- C5 witness: the amended theorem at concrete arguments, a run that
fails to resolve a model. -/
theorem C5_witness :
    (main_run none false [] (fun _ => 0) (fun _ => .ok ())).1 = 0 :=
  C5_exit_zero_always _ _ _ _ _

/-! ### Claim C6 -/

/-- C6: for every completed video run, the report satisfies
`avg_detections = detection_count / frame_count` when `frame_count > 0`
and `avg_detections = 0` when `frame_count = 0`, exactly as computed by
`run_inference_video`. -/
theorem C6_average_detections (vpredict : Nat → Except PyErr Nat)
    (cap_frames : Option (List Nat)) (video_path save_dir : String) (fs : FS)
    (rep : VideoReport)
    (h : ((run_inference_video vpredict cap_frames video_path save_dir fs).1).2
          = .ok rep) :
    (rep.frame_count ≠ 0 →
        rep.avg_detections = (rep.detection_count : ℚ) / (rep.frame_count : ℚ)) ∧
    (rep.frame_count = 0 → rep.avg_detections = 0) := by
  cases hv : videoLoop vpredict (cap_frames.getD []) 0 0 with
  | error e =>
      simp [run_inference_video, hv] at h
  | ok r =>
      obtain ⟨fc, dc⟩ := r
      simp only [run_inference_video, hv, Except.ok.injEq] at h
      subst h
      constructor
      · intro h0
        dsimp only at h0 ⊢
        rw [if_pos h0]
      · intro h0
        dsimp only at h0 ⊢
        rw [if_neg (by simp [h0])]

/-- C6 witness: the theorem applied to a completed two-frame run with two
detections per frame, whose report is
`⟨"results/inference/v_detected.mp4", 2, 4, 2⟩`. -/
theorem C6_witness :
    ((⟨"results/inference/v_detected.mp4", 2, 4, 2⟩ : VideoReport).frame_count ≠ 0 →
        (⟨"results/inference/v_detected.mp4", 2, 4, 2⟩ : VideoReport).avg_detections
          = ((⟨"results/inference/v_detected.mp4", 2, 4, 2⟩ :
                VideoReport).detection_count : ℚ)
              / ((⟨"results/inference/v_detected.mp4", 2, 4, 2⟩ :
                VideoReport).frame_count : ℚ)) ∧
    ((⟨"results/inference/v_detected.mp4", 2, 4, 2⟩ : VideoReport).frame_count = 0 →
        (⟨"results/inference/v_detected.mp4", 2, 4, 2⟩ :
            VideoReport).avg_detections = 0) :=
  C6_average_detections (fun _ => .ok 2) (some [0, 1]) "v.mp4"
    "results/inference" FS.empty ⟨"results/inference/v_detected.mp4", 2, 4, 2⟩
    (by simp [run_inference_video, videoLoop]
        constructor
        · decide
        · norm_num)

/-! ### Claim C7 -/

/-- C7, counterexample: for the source `"photo.png"` the Per-Item Processor
writes `"photo_detected.jpg"` — the extension is always `jpg` — while the
spec's filename `"{stem}_detected.{ext}"` would be
`"photo_detected.png"`. -/
theorem C7_counterexample :
    (run_inference_image (fun _ _ => .ok (0, 9)) "photo.png" 1
        "results/inference" FS.empty).2.files
      = [("results/inference/photo_detected.jpg", 9)] ∧
    spec_output_name "photo.png" = "photo_detected.png" ∧
    output_name "photo.png" ≠ spec_output_name "photo.png" :=
  ⟨by rfl, by rfl, by decide⟩

/-- C7 (amended): for every source, `run_inference_image` writes its
annotated output under the deterministic filename
`"{stem(source)}_detected.jpg"` — the `jpg` extension is fixed regardless
of the source's extension — inside `save_dir`, creating that directory if
it is absent. -/
theorem C7_output_name_fixed_jpg
    (predict : String → ℚ → Except PyErr (Nat × Nat)) (image_path : String)
    (conf_threshold : ℚ) (save_dir : String) (fs : FS) (boxes annotated : Nat)
    (h : predict image_path conf_threshold = .ok (boxes, annotated)) :
    (run_inference_image predict image_path conf_threshold save_dir fs).1
        = .ok (save_dir ++ "/" ++ (stem image_path ++ "_detected.jpg"), boxes) ∧
    save_dir ∈ (run_inference_image predict image_path conf_threshold save_dir fs).2.dirs := by
  constructor
  · simp [run_inference_image, h, output_name]
  · simp only [run_inference_image, h, write_file]
    exact mkdir_parents_mem_self fs save_dir

/-- C7 witness: the amended theorem at the concrete source `"photo.png"`. -/
theorem C7_witness :
    (run_inference_image (fun _ _ => .ok (3, 9)) "photo.png" 1
        "results/inference" FS.empty).1
      = .ok ("results/inference" ++ "/" ++ (stem "photo.png" ++ "_detected.jpg"), 3) ∧
    "results/inference" ∈ (run_inference_image (fun _ _ => .ok (3, 9)) "photo.png" 1
        "results/inference" FS.empty).2.dirs :=
  C7_output_name_fixed_jpg _ _ _ _ _ _ _ rfl

/-! ### Claim C8 -/

/-- C8: calling the Per-Item Processor twice with identical arguments is
idempotent — the second call returns the same `(output_path, detections)`
and leaves the filesystem unchanged (it overwrites the single file at the
output path rather than creating a duplicate: exactly one stored entry
remains at that path). -/
theorem C8_per_item_idempotent
    (predict : String → ℚ → Except PyErr (Nat × Nat)) (image_path : String)
    (conf_threshold : ℚ) (save_dir : String) (fs : FS) (r : Nat × Nat)
    (h : predict image_path conf_threshold = .ok r) :
    run_inference_image predict image_path conf_threshold save_dir
        (run_inference_image predict image_path conf_threshold save_dir fs).2
      = run_inference_image predict image_path conf_threshold save_dir fs ∧
    file_count (run_inference_image predict image_path conf_threshold save_dir fs).2
        (save_dir ++ "/" ++ output_name image_path) = 1 := by
  obtain ⟨boxes, annotated⟩ := r
  have hdirs : save_dir ∈ (write_file (mkdir_parents fs save_dir)
      (save_dir ++ "/" ++ output_name image_path) annotated).dirs := by
    rw [write_file_dirs]
    exact mkdir_parents_mem_self fs save_dir
  constructor
  · simp only [run_inference_image, h]
    rw [mkdir_parents_of_mem _ _ hdirs, write_file_write_file]
  · simp only [run_inference_image, h]
    exact write_file_count_self _ _ _

/-- C8 witness: the idempotence theorem at concrete arguments. -/
theorem C8_witness :
    run_inference_image (fun _ _ => .ok (2, 11)) "photo.jpg" 1 "results/inference"
        (run_inference_image (fun _ _ => .ok (2, 11)) "photo.jpg" 1
          "results/inference" FS.empty).2
      = run_inference_image (fun _ _ => .ok (2, 11)) "photo.jpg" 1
          "results/inference" FS.empty ∧
    file_count (run_inference_image (fun _ _ => .ok (2, 11)) "photo.jpg" 1
          "results/inference" FS.empty).2
        ("results/inference" ++ "/" ++ output_name "photo.jpg") = 1 :=
  C8_per_item_idempotent _ _ _ _ _ _ rfl

/-! ### Claim C9 -/

/-- C9: both prediction routes return the 503 service-unavailable signal
whenever no model is loaded, and the 400 bad-request signal whenever a
model is loaded but the uploaded payload fails to decode. -/
theorem C9_api_error_mapping (m : Image → List DetectionResult)
    (plot : Image → List DetectionResult → Nat)
    (decode : List Nat → Option Image) (contents : List Nat)
    (h : decode contents = none) :
    predict_route none decode contents = .httpError 503 "Model not loaded" ∧
    predict_annotated_route none plot decode contents
        = .httpError 503 "Model not loaded" ∧
    predict_route (some m) decode contents = .httpError 400 "Invalid image file" ∧
    predict_annotated_route (some m) plot decode contents
        = .httpError 400 "Invalid image file" := by
  refine ⟨rfl, rfl, ?_, ?_⟩
  · simp [predict_route, h]
  · simp [predict_annotated_route, h]

/-- C9 witness: the error-mapping theorem at a concrete model, decoder that
rejects the payload, and empty payload. -/
theorem C9_witness :
    predict_route none (fun _ => none) [] = .httpError 503 "Model not loaded" ∧
    predict_annotated_route none (fun _ _ => 0) (fun _ => none) []
        = .httpError 503 "Model not loaded" ∧
    predict_route (some (fun _ => [])) (fun _ => none) []
        = .httpError 400 "Invalid image file" ∧
    predict_annotated_route (some (fun _ => [])) (fun _ _ => 0) (fun _ => none) []
        = .httpError 400 "Invalid image file" :=
  C9_api_error_mapping _ _ _ _ rfl

/-! ### Claim C10 -/

/-- C10: `find_latest_model` fails exactly when the `models` directory does
not exist or no listed file matches `helmet_detector_best_*.pt`, and
otherwise returns a matching file of maximal modification time; the
`Api.py` variant resolves identically, signalling the failure cases by
returning `none`. -/
theorem C10_find_latest_model (models_dir_exists : Bool) (listing : List String)
    (mtime : String → Nat) :
    find_latest_model_api models_dir_exists listing mtime
        = (find_latest_model models_dir_exists listing mtime).toOption ∧
    (find_latest_model models_dir_exists listing mtime).isOk
        = (models_dir_exists && !(listing.filter matches_model_glob).isEmpty) ∧
    ∀ s ∈ (find_latest_model models_dir_exists listing mtime).toOption,
      s ∈ listing.filter matches_model_glob ∧
      ∀ y ∈ listing.filter matches_model_glob, mtime y ≤ mtime s := by
  unfold find_latest_model find_latest_model_api
  cases models_dir_exists with
  | false => simp [Except.toOption, Except.isOk, Except.toBool]
  | true =>
      cases hf : listing.filter matches_model_glob with
      | nil => simp [Except.toOption, Except.isOk, Except.toBool]
      | cons x xs =>
          refine ⟨by simp [Except.toOption], by simp [Except.isOk, Except.toBool], ?_⟩
          intro s hs
          have hs' : py_max_by mtime x xs = s := by
            simpa [Option.mem_def, Except.toOption] using hs
          subst hs'
          obtain ⟨hmem, hle, hall⟩ := py_max_by_spec mtime x xs
          constructor
          · exact hmem
          · intro y hy
            rcases List.mem_cons.mp hy with h | h
            · rw [h]
              exact hle
            · exact hall y h

/-- C10 witness: the theorem at a concrete listing containing two matching
model files and one non-matching file, with the name length as the
modification-time oracle. -/
theorem C10_witness :
    find_latest_model_api true
        ["helmet_detector_best_a.pt", "x.txt", "helmet_detector_best_bb.pt"]
        String.length
      = (find_latest_model true
          ["helmet_detector_best_a.pt", "x.txt", "helmet_detector_best_bb.pt"]
          String.length).toOption ∧
    (find_latest_model true
        ["helmet_detector_best_a.pt", "x.txt", "helmet_detector_best_bb.pt"]
        String.length).isOk
      = (true && !((["helmet_detector_best_a.pt", "x.txt",
          "helmet_detector_best_bb.pt"].filter matches_model_glob)).isEmpty) ∧
    ∀ s ∈ (find_latest_model true
        ["helmet_detector_best_a.pt", "x.txt", "helmet_detector_best_bb.pt"]
        String.length).toOption,
      s ∈ ["helmet_detector_best_a.pt", "x.txt",
            "helmet_detector_best_bb.pt"].filter matches_model_glob ∧
      ∀ y ∈ ["helmet_detector_best_a.pt", "x.txt",
            "helmet_detector_best_bb.pt"].filter matches_model_glob,
        String.length y ≤ String.length s :=
  C10_find_latest_model _ _ _

end HelmetDetect
